import Mathlib

/-!
Shallow embedding of `api/index.py` (follower-count fetcher behind one HTTP
handler) and verification of its specification claims.

Python values that flow through the program are modelled by `Json`; Python
exceptions by `PyErr`; outbound network effects by an explicit `Event` trace;
the three upstream services (Bilibili public API, YouTube Data API, Vercel KV
REST API) by oracles packed in a `World`.
-/

namespace FollowerFetch

/-- A JSON value, doubling as the Python runtime value the program manipulates
(dicts, lists, strings, ints, bools, None). -/
inductive Json where
  | null
  | bool (b : Bool)
  | int (n : Int)
  | str (s : String)
  | arr (xs : List Json)
  | obj (fields : List (String × Json))
deriving Repr

/-- Python exceptions that the embedded code can raise. -/
inductive PyErr where
  | attributeError
  | typeError
  | valueError
  | indexError
deriving Repr, DecidableEq

/-- Python truthiness (`if x:`). -/
def pyTruthy : Json → Bool
  | .null => false
  | .bool b => b
  | .int n => n != 0
  | .str s => s ≠ ""
  | .arr xs => !xs.isEmpty
  | .obj fs => !fs.isEmpty

/-- Python `x.get(k)` on a value: `None` when the key is absent,
`AttributeError` when `x` is not a dict. -/
def pyGet : Json → String → Except PyErr Json
  | .obj fs, k => .ok ((List.lookup k fs).getD .null)
  | _, _ => .error .attributeError

/-- Python `x.get(k, default)`. -/
def pyGetD : Json → String → Json → Except PyErr Json
  | .obj fs, k, d => .ok ((List.lookup k fs).getD d)
  | _, _, _ => .error .attributeError

/-- Python `xs[0]`: head of a list, first character of a string. -/
def pyIndex0 : Json → Except PyErr Json
  | .arr (x :: _) => .ok x
  | .arr [] => .error .indexError
  | .str s => if s.length > 0 then .ok (.str (String.singleton (s.get 0))) else .error .indexError
  | _ => .error .typeError

/-- Python `x == 0` (`0 == False` is `True` in Python). -/
def pyEqZero : Json → Bool
  | .int 0 => true
  | .bool false => true
  | _ => false

/-- Python `x == False` (`0 == False` is `True` in Python). -/
def pyEqFalse : Json → Bool
  | .bool false => true
  | .int 0 => true
  | _ => false

/-- Python `x == "OK"`. -/
def pyEqOK : Json → Bool
  | .str s => s = "OK"
  | _ => false

/-- Digits of a decimal numeral (no sign), `none` when empty or non-digit. -/
def digitsOf (cs : List Char) : Option Nat :=
  if cs.isEmpty then none
  else cs.foldl (fun acc c => acc.bind fun n =>
    if c.isDigit then some (n * 10 + (c.toNat - 48)) else none) (some 0)

/-- Leading and trailing whitespace removed, as Python `int()` does to strings. -/
def stripWS (cs : List Char) : List Char :=
  ((cs.dropWhile Char.isWhitespace).reverse.dropWhile Char.isWhitespace).reverse

/-- Python `int(s)` on a string: strip whitespace, optional sign, decimal digits. -/
def parseIntStr (s : String) : Option Int :=
  match stripWS s.toList with
  | '+' :: rest => (digitsOf rest).map Int.ofNat
  | '-' :: rest => (digitsOf rest).map (fun n => -(Int.ofNat n))
  | cs => (digitsOf cs).map Int.ofNat

/-- Python `int(x)`: identity on ints, 0/1 on bools, decimal parse on strings
(`ValueError` on failure), `TypeError` otherwise. -/
def pyInt : Json → Except PyErr Int
  | .int n => .ok n
  | .bool b => .ok (if b then 1 else 0)
  | .str s =>
    match parseIntStr s with
    | some n => .ok n
    | none => .error .valueError
  | _ => .error .typeError

/-- Truthiness of an environment value (`not os.environ.get(..)`):
falsy when unset or the empty string. -/
def truthyOpt : Option String → Bool
  | none => false
  | some s => s ≠ ""

/-- Outcome of one outbound HTTP exchange: the request itself failed
(`requests.exceptions.RequestException`), or a response arrived with a status
code and a body that either decodes to JSON (`some`) or does not (`none`). -/
inductive Upstream where
  | netError
  | resp (status : Nat) (body : Option Json)

/-- Outcome of the YouTube client call (`build` + `execute`): an exception, or
a parsed response structure. -/
inductive YtUpstream where
  | raise
  | resp (response : Json)

/-- Observable outbound effects of one handler invocation. -/
inductive Event where
  | bilibiliRequest
  | youtubeRequest
  | timestampCapture
  | kvSetRequest (key : String) (value : Json)
deriving Repr

/-- `datetime.datetime.utcnow()` result. -/
structure DateTime where
  year : Nat
  month : Nat
  day : Nat
  hour : Nat
  minute : Nat
  second : Nat
  microsecond : Nat

def pad2 (n : Nat) : String :=
  if n < 10 then "0" ++ toString n else toString n

def pad4 (n : Nat) : String :=
  if n < 10 then "000" ++ toString n
  else if n < 100 then "00" ++ toString n
  else if n < 1000 then "0" ++ toString n
  else toString n

def pad6 (n : Nat) : String :=
  if n < 10 then "00000" ++ toString n
  else if n < 100 then "0000" ++ toString n
  else if n < 1000 then "000" ++ toString n
  else if n < 10000 then "00" ++ toString n
  else if n < 100000 then "0" ++ toString n
  else toString n

/-- Python `datetime.isoformat()`: `YYYY-MM-DDTHH:MM:SS[.ffffff]`, the
fractional part omitted when `microsecond == 0`. -/
def pyIsoformat (t : DateTime) : String :=
  pad4 t.year ++ "-" ++ pad2 t.month ++ "-" ++ pad2 t.day ++ "T" ++
  pad2 t.hour ++ ":" ++ pad2 t.minute ++ ":" ++ pad2 t.second ++
  (if t.microsecond = 0 then "" else "." ++ pad6 t.microsecond)

-- Configuration constants of api/index.py

def BILIBILI_USER_ID : String := "491306902"

def YOUTUBE_CHANNEL_ID : String := "UC_5lJHgnMP_lb_VpIiXV0hQ"

def KV_KEY_NAME : String := "follower_counts"

/-- The three environment variables read at module load. -/
structure Config where
  youtube_api_key : Option String
  kv_rest_api_url : Option String
  kv_rest_api_token : Option String

/-- The external world one invocation runs against: the three upstream
oracles and the wall clock. -/
structure World where
  bilibili : Upstream
  youtube : YtUpstream
  kv : Upstream
  now : DateTime

/-- `get_bilibili_followers`: GET the public stat endpoint,
`raise_for_status`, decode JSON, and on `code == 0` return
`data.get("data", {}).get("follower")`. `RequestException` and
`JSONDecodeError` are caught and give `None`; any other exception (such as
`AttributeError` when the decoded body is not a dict) propagates. -/
def get_bilibili_followers (u : Upstream) : Except PyErr Json :=
  match u with
  | .netError => .ok .null
  | .resp status body =>
    if 400 ≤ status then .ok .null
    else
      match body with
      | none => .ok .null
      | some data =>
        match pyGet data "code" with
        | .error e => .error e
        | .ok code =>
          if pyEqZero code then
            match pyGetD data "data" (.obj []) with
            | .error e => .error e
            | .ok d =>
              match pyGet d "follower" with
              | .error e => .error e
              | .ok follower => .ok follower
          else .ok .null

/-- Body of the `try` block of `get_youtube_subscribers` after
`request.execute()` returned `response`: check `response.get("items")` for
truthiness, take `response["items"][0].get("statistics", {})`, and return
`int(statistics.get("subscriberCount", 0))` when
`statistics.get("hiddenSubscriberCount") == False`, else `"hidden"`. -/
def ytTryBody (response : Json) : Except PyErr Json :=
  match pyGet response "items" with
  | .error e => .error e
  | .ok items =>
    if pyTruthy items then
      match pyIndex0 items with
      | .error e => .error e
      | .ok item0 =>
        match pyGetD item0 "statistics" (.obj []) with
        | .error e => .error e
        | .ok statistics =>
          match pyGet statistics "hiddenSubscriberCount" with
          | .error e => .error e
          | .ok hid =>
            if pyEqFalse hid then
              match pyGetD statistics "subscriberCount" (.int 0) with
              | .error e => .error e
              | .ok sc =>
                match pyInt sc with
                | .error e => .error e
                | .ok n => .ok (.int n)
            else .ok (.str "hidden")
    else .ok .null

/-- `get_youtube_subscribers`: returns `None` immediately when the API key is
falsy; otherwise runs the client call inside `try ... except Exception`, so
every exception is swallowed into `None`. -/
def get_youtube_subscribers (api_key : Option String) (u : YtUpstream) : Json :=
  if !truthyOpt api_key then .null
  else
    match u with
    | .raise => .null
    | .resp response =>
      match ytTryBody response with
      | .ok v => v
      | .error _ => .null

/-- Outcome of the issued KV `set` request (the `try` block of
`store_in_vercel_kv` after the POST): `raise_for_status`, decode the JSON
body and compare `result.get("result") == "OK"`. The two caught exception
classes give `False`; an `AttributeError` on a non-dict body propagates. -/
def kvSetOutcome (u : Upstream) : Except PyErr Bool :=
  match u with
  | .netError => .ok false
  | .resp status body =>
    if 400 ≤ status then .ok false
    else
      match body with
      | none => .ok false
      | some result =>
        match pyGet result "result" with
        | .error e => .error e
        | .ok r => .ok (pyEqOK r)

/-- `store_in_vercel_kv`: fail fast (no request) when URL or token is falsy;
otherwise POST to `<url>/set/<key>` and evaluate the outcome. -/
def store_in_vercel_kv (kvUrl kvToken : Option String) (key : String)
    (value : Json) (u : Upstream) : List Event × Except PyErr Bool :=
  if !truthyOpt kvUrl || !truthyOpt kvToken then ([], .ok false)
  else ([.kvSetRequest key value], kvSetOutcome u)

/-- The `result_data` dict the handler assembles. -/
def result_data (bilibili_followers youtube_subscribers : Json)
    (timestamp : String) : Json :=
  .obj [("bilibili", .obj [("user_id", .str BILIBILI_USER_ID),
                           ("followers", bilibili_followers)]),
        ("youtube", .obj [("channel_id", .str YOUTUBE_CHANNEL_ID),
                          ("subscribers", youtube_subscribers)]),
        ("last_updated_utc", .str timestamp)]

/-- An HTTP response the handler writes: status code, content type header,
JSON body. -/
structure HttpResponse where
  status : Nat
  contentType : String
  body : Json
deriving Repr

def config_error_response : HttpResponse :=
  { status := 500, contentType := "application/json",
    body := .obj [("error", .str "Missing required environment variables (YOUTUBE_API_KEY, KV_REST_API_URL, KV_REST_API_TOKEN)")] }

def success_response (rd : Json) : HttpResponse :=
  { status := 200, contentType := "application/json",
    body := .obj [("status", .str "success"), ("data_stored", rd)] }

def kv_error_response : HttpResponse :=
  { status := 500, contentType := "application/json",
    body := .obj [("status", .str "error"),
                  ("message", .str "Failed to store data in Vercel KV")] }

/-- The events emitted by the YouTube adapter: one outbound call unless the
API key is falsy (in which case it returns before any network I/O). -/
def youtubeEvents (api_key : Option String) : List Event :=
  if truthyOpt api_key then [.youtubeRequest] else []

/-- `handler.do_GET`: config check (early 500), fetch Bilibili then YouTube,
capture the timestamp, assemble `result_data`, store it in Vercel KV, and
answer 200/500 from the store outcome. Returns the outbound event trace and
either the written response or an uncaught exception. -/
def do_GET (cfg : Config) (w : World) : List Event × Except PyErr HttpResponse :=
  if !truthyOpt cfg.youtube_api_key || !truthyOpt cfg.kv_rest_api_url
      || !truthyOpt cfg.kv_rest_api_token then
    ([], .ok config_error_response)
  else
    match get_bilibili_followers w.bilibili with
    | .error e => ([.bilibiliRequest], .error e)
    | .ok bilibili_followers =>
      let youtube_subscribers := get_youtube_subscribers cfg.youtube_api_key w.youtube
      let timestamp := pyIsoformat w.now ++ "Z"
      let rd := result_data bilibili_followers youtube_subscribers timestamp
      let st := store_in_vercel_kv cfg.kv_rest_api_url cfg.kv_rest_api_token
        KV_KEY_NAME rd w.kv
      let events := [Event.bilibiliRequest] ++ youtubeEvents cfg.youtube_api_key
        ++ [Event.timestampCapture] ++ st.1
      match st.2 with
      | .error e => (events, .error e)
      | .ok success =>
        if success then (events, .ok (success_response rd))
        else (events, .ok kv_error_response)

/-- All three environment values present (truthy). -/
def configPresent (cfg : Config) : Bool :=
  truthyOpt cfg.youtube_api_key && truthyOpt cfg.kv_rest_api_url
    && truthyOpt cfg.kv_rest_api_token

/-- Map the store outcome to the handler's final result (the last `if` of
`do_GET`). -/
def storeToResult : Except PyErr Bool → Json → Except PyErr HttpResponse
  | .error e, _ => .error e
  | .ok true, rd => .ok (success_response rd)
  | .ok false, _ => .ok kv_error_response

/-- Condition under which the YouTube adapter answers the hidden sentinel:
the response is a dict with a truthy `items`, the first item is indexable and
a dict, its `statistics` value is a dict, and that dict's
`hiddenSubscriberCount` entry is not Python-`==` to `False`. -/
def ytHiddenCond (r : Json) : Bool :=
  match pyGet r "items" with
  | .error _ => false
  | .ok items =>
    if pyTruthy items then
      match pyIndex0 items with
      | .error _ => false
      | .ok item0 =>
        match pyGetD item0 "statistics" (.obj []) with
        | .error _ => false
        | .ok statistics =>
          match pyGet statistics "hiddenSubscriberCount" with
          | .error _ => false
          | .ok hid => !pyEqFalse hid
    else false

/-- From the claim words (C2): one of the response's items carries a
statistics dict that explicitly marks the subscriber count as hidden, i.e.
`hiddenSubscriberCount` present and `true`. -/
def itemMarksHidden (item : Json) : Bool :=
  match item with
  | .obj fs =>
    match List.lookup "statistics" fs with
    | some (.obj sfs) =>
      match List.lookup "hiddenSubscriberCount" sfs with
      | some (.bool true) => true
      | _ => false
    | _ => false
  | _ => false

/-- From the claim words (C2): the upstream response explicitly marks the
subscriber count as hidden. -/
def marksSubscriberCountHidden (r : Json) : Bool :=
  match r with
  | .obj fs =>
    match List.lookup "items" fs with
    | some (.arr items) => items.any itemMarksHidden
    | _ => false
  | _ => false

/-- From the claim words (C9): the item's statistics dict has
`hiddenSubscriberCount` exactly `false` and no `subscriberCount` field. -/
def itemHiddenFalseNoSub (item : Json) : Bool :=
  match item with
  | .obj fs =>
    match List.lookup "statistics" fs with
    | some (.obj sfs) =>
      (match List.lookup "hiddenSubscriberCount" sfs with
       | some (.bool false) => true
       | _ => false)
      && (match List.lookup "subscriberCount" sfs with
          | none => true
          | some _ => false)
    | _ => false
  | _ => false

/-- From the claim words (C9): the response contains at least one item whose
`hiddenSubscriberCount` is exactly `false` but whose `subscriberCount` field
is absent. -/
def hasItemHiddenFalseNoSub (r : Json) : Bool :=
  match r with
  | .obj fs =>
    match List.lookup "items" fs with
    | some (.arr items) => items.any itemHiddenFalseNoSub
    | _ => false
  | _ => false

/-- Recognizer for the timestamp-capture event. -/
def isTimestampCapture : Event → Bool
  | .timestampCapture => true
  | _ => false

-- Concrete inputs used by witnesses and counterexamples

/-- A concrete configuration with all three values present. -/
def cfg7 : Config := ⟨some "k", some "https://kv.example", some "tok"⟩

/-- The world of end-to-end scenario 1 (claim C7). -/
def w7 : World :=
  { bilibili := .resp 200 (some (.obj [("code", .int 0),
      ("data", .obj [("follower", .int 500)])])),
    youtube := .resp (.obj [("items", .arr [.obj [("statistics",
      .obj [("subscriberCount", .str "1200"),
            ("hiddenSubscriberCount", .bool false)])]])]),
    kv := .resp 200 (some (.obj [("result", .str "OK")])),
    now := ⟨2024, 1, 2, 3, 4, 5, 678901⟩ }

/-- A world whose Bilibili request fails at the network level and whose KV
store accepts the write (claim C6's scenario). -/
def w6 : World :=
  { bilibili := .netError,
    youtube := w7.youtube,
    kv := w7.kv,
    now := ⟨2025, 11, 30, 23, 59, 58, 0⟩ }

/-- An arbitrary world for witnesses that do not depend on the oracles. -/
def wAny : World :=
  { bilibili := .netError, youtube := .raise, kv := .netError,
    now := ⟨2025, 6, 7, 8, 9, 10, 11⟩ }

/-- A YouTube response whose single item's statistics has a subscriber count
but no `hiddenSubscriberCount` field at all. -/
def ytRespNoHiddenField : Json :=
  .obj [("items", .arr [.obj [("statistics",
    .obj [("subscriberCount", .str "5")])]])]

/-- A YouTube response whose single item reports a negative subscriber count
with `hiddenSubscriberCount` false. -/
def ytRespNegCount : Json :=
  .obj [("items", .arr [.obj [("statistics",
    .obj [("subscriberCount", .str "-5"),
          ("hiddenSubscriberCount", .bool false)])]])]

/-- A YouTube response whose first item marks the count hidden while its
second item has `hiddenSubscriberCount` false and no `subscriberCount`. -/
def ytRespTwoItems : Json :=
  .obj [("items", .arr [
    .obj [("statistics", .obj [("hiddenSubscriberCount", .bool true)])],
    .obj [("statistics", .obj [("hiddenSubscriberCount", .bool false)])]])]

-- Helper lemmas

/-- With all three configuration values truthy and the Bilibili call
returning normally, one handler invocation runs both adapters, captures the
timestamp once, issues the KV write, and maps the store outcome to the
response. -/
theorem do_GET_run (cfg : Config) (w : World) (bf : Json)
    (h1 : truthyOpt cfg.youtube_api_key = true)
    (h2 : truthyOpt cfg.kv_rest_api_url = true)
    (h3 : truthyOpt cfg.kv_rest_api_token = true)
    (hb : get_bilibili_followers w.bilibili = .ok bf) :
    do_GET cfg w =
      ([Event.bilibiliRequest, Event.youtubeRequest, Event.timestampCapture,
        Event.kvSetRequest KV_KEY_NAME
          (result_data bf (get_youtube_subscribers cfg.youtube_api_key w.youtube)
            (pyIsoformat w.now ++ "Z"))],
       storeToResult (kvSetOutcome w.kv)
         (result_data bf (get_youtube_subscribers cfg.youtube_api_key w.youtube)
            (pyIsoformat w.now ++ "Z"))) := by
  unfold do_GET store_in_vercel_kv youtubeEvents
  rw [hb]
  simp [h1, h2, h3]
  cases hkv : kvSetOutcome w.kv with
  | error e => simp [storeToResult]
  | ok b => cases b <;> simp [storeToResult]

/-- The `try`-block of the YouTube adapter either answers the hidden sentinel
(exactly when `ytHiddenCond` holds) or produces an integer, `None`, or an
exception. -/
theorem ytTryBody_spec (r : Json) :
    (ytTryBody r = .ok (.str "hidden") ∧ ytHiddenCond r = true)
    ∨ (ytHiddenCond r = false ∧
        ((∃ n, ytTryBody r = .ok (.int n)) ∨ ytTryBody r = .ok .null
          ∨ ∃ e, ytTryBody r = .error e)) := by
  cases hg : pyGet r "items" with
  | error e =>
    exact Or.inr ⟨by simp [ytHiddenCond, hg],
      Or.inr (Or.inr ⟨e, by simp [ytTryBody, hg]⟩)⟩
  | ok items =>
    cases ht : pyTruthy items with
    | false =>
      exact Or.inr ⟨by simp [ytHiddenCond, hg, ht],
        Or.inr (Or.inl (by simp [ytTryBody, hg, ht]))⟩
    | true =>
      cases hi : pyIndex0 items with
      | error e =>
        exact Or.inr ⟨by simp [ytHiddenCond, hg, ht, hi],
          Or.inr (Or.inr ⟨e, by simp [ytTryBody, hg, ht, hi]⟩)⟩
      | ok item0 =>
        cases hs : pyGetD item0 "statistics" (.obj []) with
        | error e =>
          exact Or.inr ⟨by simp [ytHiddenCond, hg, ht, hi, hs],
            Or.inr (Or.inr ⟨e, by simp [ytTryBody, hg, ht, hi, hs]⟩)⟩
        | ok statistics =>
          cases hh : pyGet statistics "hiddenSubscriberCount" with
          | error e =>
            exact Or.inr ⟨by simp [ytHiddenCond, hg, ht, hi, hs, hh],
              Or.inr (Or.inr ⟨e, by simp [ytTryBody, hg, ht, hi, hs, hh]⟩)⟩
          | ok hid =>
            cases hf : pyEqFalse hid with
            | false =>
              exact Or.inl ⟨by simp [ytTryBody, hg, ht, hi, hs, hh, hf],
                by simp [ytHiddenCond, hg, ht, hi, hs, hh, hf]⟩
            | true =>
              cases hsc : pyGetD statistics "subscriberCount" (.int 0) with
              | error e =>
                exact Or.inr ⟨by simp [ytHiddenCond, hg, ht, hi, hs, hh, hf],
                  Or.inr (Or.inr ⟨e, by simp [ytTryBody, hg, ht, hi, hs, hh, hf, hsc]⟩)⟩
              | ok sc =>
                cases hn : pyInt sc with
                | error e =>
                  exact Or.inr ⟨by simp [ytHiddenCond, hg, ht, hi, hs, hh, hf],
                    Or.inr (Or.inr ⟨e, by simp [ytTryBody, hg, ht, hi, hs, hh, hf, hsc, hn]⟩)⟩
                | ok n =>
                  exact Or.inr ⟨by simp [ytHiddenCond, hg, ht, hi, hs, hh, hf],
                    Or.inl ⟨n, by simp [ytTryBody, hg, ht, hi, hs, hh, hf, hsc, hn]⟩⟩

-- Claim theorems

/-- Claim C1: whenever at least one of the three required configuration
values is absent, the handler responds HTTP 500 with a JSON error body and
performs zero outbound network calls — neither adapter is invoked and the
store write is not attempted (the event trace is empty). -/
theorem C1_missing_config_500_no_calls (cfg : Config) (w : World)
    (h : cfg.youtube_api_key = none ∨ cfg.kv_rest_api_url = none
      ∨ cfg.kv_rest_api_token = none) :
    do_GET cfg w = ([], .ok config_error_response)
      ∧ config_error_response.status = 500 := by
  refine ⟨?_, rfl⟩
  unfold do_GET
  rcases h with h | h | h <;> rw [h] <;> simp [truthyOpt]

/-- Witness for C1 at a concrete configuration lacking the YouTube key. -/
theorem C1_witness :
    do_GET ⟨none, some "u", some "t"⟩ wAny = ([], .ok config_error_response)
      ∧ config_error_response.status = 500 :=
  C1_missing_config_500_no_calls ⟨none, some "u", some "t"⟩ wAny (Or.inl rfl)

/-- Counterexample to claim C2 as stated: on a response whose statistics has
no `hiddenSubscriberCount` field at all — so the upstream does not explicitly
mark the count hidden — the adapter still answers the hidden sentinel; and on
a response reporting subscriber count "-5" with `hiddenSubscriberCount`
false, it returns the negative integer -5, not a non-negative integer, null
or the sentinel. -/
theorem C2_counterexample :
    (get_youtube_subscribers (some "key") (.resp ytRespNoHiddenField) = .str "hidden"
      ∧ marksSubscriberCountHidden ytRespNoHiddenField = false)
    ∧ get_youtube_subscribers (some "key") (.resp ytRespNegCount) = .int (-5) :=
  ⟨⟨rfl, rfl⟩, rfl⟩

/-- Claim C2 (amended): the Platform B adapter answers the hidden sentinel
exactly when the response yields a truthy `items` whose first element's
statistics dict has a `hiddenSubscriberCount` value that is not Python-`==`
to `False` (so also when the field is absent); in every other handled case it
returns an integer (the `int()` coercion of `subscriberCount`, default 0,
possibly negative) or null. -/
theorem C2_amended_hidden_iff (api_key : Option String) (r : Json)
    (hk : truthyOpt api_key = true) :
    (get_youtube_subscribers api_key (.resp r) = .str "hidden"
      ↔ ytHiddenCond r = true)
    ∧ (ytHiddenCond r = false →
        (∃ n, get_youtube_subscribers api_key (.resp r) = .int n)
        ∨ get_youtube_subscribers api_key (.resp r) = .null) := by
  have hres : get_youtube_subscribers api_key (.resp r)
      = match ytTryBody r with
        | .ok v => v
        | .error _ => .null := by
    simp [get_youtube_subscribers, hk]
  rcases ytTryBody_spec r with ⟨h1, h2⟩ | ⟨h1, h2⟩
  · rw [hres, h1]
    exact ⟨by simp [h2], by simp [h2]⟩
  · rcases h2 with ⟨n, hn⟩ | hn | ⟨e, he⟩
    · rw [hres, hn]
      exact ⟨by simp [h1], fun _ => Or.inl ⟨n, rfl⟩⟩
    · rw [hres, hn]
      exact ⟨by simp [h1], fun _ => Or.inr rfl⟩
    · rw [hres, he]
      exact ⟨by simp [h1], fun _ => Or.inr rfl⟩

/-- Witness for the amended C2 at a concrete response. -/
theorem C2_witness :
    (get_youtube_subscribers (some "key") (.resp (.obj [])) = .str "hidden"
      ↔ ytHiddenCond (.obj []) = true)
    ∧ (ytHiddenCond (.obj []) = false →
        (∃ n, get_youtube_subscribers (some "key") (.resp (.obj [])) = .int n)
        ∨ get_youtube_subscribers (some "key") (.resp (.obj [])) = .null) :=
  C2_amended_hidden_iff (some "key") (.obj []) rfl

/-- Claim C3 (code bug): on a successful HTTP response whose JSON body is not
an object (here the array `[]`), the Bilibili adapter raises
`AttributeError` out of its boundary instead of returning `None` — only
`RequestException` and `JSONDecodeError` are caught. -/
theorem C3_bilibili_uncaught_exception :
    get_bilibili_followers (.resp 200 (some (.arr []))) = .error .attributeError :=
  rfl

/-- Claim C4 (code bug): when the store responds with success status and a
parsable JSON body that is not an object (here the array `[]`), the
persistence write raises `AttributeError` instead of returning false — only
`RequestException` and `JSONDecodeError` are caught. -/
theorem C4_store_uncaught_exception :
    store_in_vercel_kv (some "https://kv.example") (some "token") KV_KEY_NAME
      (.obj []) (.resp 200 (some (.arr [])))
      = ([.kvSetRequest KV_KEY_NAME (.obj [])], .error .attributeError) :=
  rfl

/-- Claim C5: with configuration present (and the run reaching the store,
i.e. neither call raising), the handler's HTTP response is determined by the
persistence result alone: store success gives 200 with status "success" and
the full stored snapshot, store failure gives 500 with status "error" and
the fixed message. -/
theorem C5_response_determined_by_store (cfg : Config) (w : World) (bf : Json)
    (b : Bool) (hcfg : configPresent cfg = true)
    (hb : get_bilibili_followers w.bilibili = .ok bf)
    (hkv : kvSetOutcome w.kv = .ok b) :
    (do_GET cfg w).2 =
      .ok (if b then
        success_response (result_data bf
          (get_youtube_subscribers cfg.youtube_api_key w.youtube)
          (pyIsoformat w.now ++ "Z"))
      else kv_error_response) := by
  simp only [configPresent, Bool.and_eq_true] at hcfg
  obtain ⟨⟨h1, h2⟩, h3⟩ := hcfg
  rw [do_GET_run cfg w bf h1 h2 h3 hb]
  cases b <;> simp [hkv, storeToResult]

/-- Witness for C5 at the scenario-1 configuration and world. -/
theorem C5_witness :
    (do_GET cfg7 w7).2 =
      .ok (if true then
        success_response (result_data (.int 500)
          (get_youtube_subscribers cfg7.youtube_api_key w7.youtube)
          (pyIsoformat w7.now ++ "Z"))
      else kv_error_response) :=
  C5_response_determined_by_store cfg7 w7 (.int 500) true rfl rfl rfl

/-- Claim C6: with configuration present, a Bilibili network failure does not
prevent the YouTube adapter from running nor snapshot construction and the
store write: the snapshot is built with followers null and the YouTube value,
the KV write is issued with it, and the handler answers 200 when the write
succeeds. -/
theorem C6_adapter_failure_no_short_circuit (cfg : Config) (w : World)
    (hcfg : configPresent cfg = true)
    (hb : w.bilibili = .netError)
    (hkv : kvSetOutcome w.kv = .ok true) :
    do_GET cfg w =
      ([Event.bilibiliRequest, Event.youtubeRequest, Event.timestampCapture,
        Event.kvSetRequest KV_KEY_NAME
          (result_data .null
            (get_youtube_subscribers cfg.youtube_api_key w.youtube)
            (pyIsoformat w.now ++ "Z"))],
       .ok (success_response
        (result_data .null
          (get_youtube_subscribers cfg.youtube_api_key w.youtube)
          (pyIsoformat w.now ++ "Z")))) := by
  simp only [configPresent, Bool.and_eq_true] at hcfg
  obtain ⟨⟨h1, h2⟩, h3⟩ := hcfg
  have hbf : get_bilibili_followers w.bilibili = .ok .null := by
    rw [hb]
    rfl
  rw [do_GET_run cfg w .null h1 h2 h3 hbf, hkv]
  rfl

/-- Witness for C6 at a concrete world whose Bilibili request fails. -/
theorem C6_witness :
    do_GET cfg7 w6 =
      ([Event.bilibiliRequest, Event.youtubeRequest, Event.timestampCapture,
        Event.kvSetRequest KV_KEY_NAME
          (result_data .null
            (get_youtube_subscribers cfg7.youtube_api_key w6.youtube)
            (pyIsoformat w6.now ++ "Z"))],
       .ok (success_response
        (result_data .null
          (get_youtube_subscribers cfg7.youtube_api_key w6.youtube)
          (pyIsoformat w6.now ++ "Z")))) :=
  C6_adapter_failure_no_short_circuit cfg7 w6 rfl rfl rfl

/-- Claim C7: end-to-end scenario 1 — Bilibili answers code 0 with follower
500, YouTube answers one item with subscriberCount "1200" and
hiddenSubscriberCount false, the store accepts the write; the snapshot holds
user_id "491306902" with followers 500 and the fixed channel_id with
subscribers 1200 (string coerced to integer), and the handler answers 200
with status "success". -/
theorem C7_scenario1 :
    do_GET cfg7 w7 =
      ([Event.bilibiliRequest, Event.youtubeRequest, Event.timestampCapture,
        Event.kvSetRequest "follower_counts"
          (result_data (.int 500) (.int 1200) "2024-01-02T03:04:05.678901Z")],
       .ok (success_response
        (result_data (.int 500) (.int 1200) "2024-01-02T03:04:05.678901Z")))
    ∧ result_data (.int 500) (.int 1200) "2024-01-02T03:04:05.678901Z"
      = .obj [("bilibili", .obj [("user_id", .str "491306902"),
                ("followers", .int 500)]),
              ("youtube", .obj [("channel_id", .str "UC_5lJHgnMP_lb_VpIiXV0hQ"),
                ("subscribers", .int 1200)]),
              ("last_updated_utc", .str "2024-01-02T03:04:05.678901Z")] :=
  ⟨rfl, rfl⟩

/-- Claim C8: with configuration present (and the Bilibili call returning),
the timestamp is captured exactly once, after both adapter calls and before
the store write, and the snapshot timestamp is the UTC `isoformat` string
with the literal "Z" appended. -/
theorem C8_timestamp_once_after_adapters (cfg : Config) (w : World) (bf : Json)
    (hcfg : configPresent cfg = true)
    (hb : get_bilibili_followers w.bilibili = .ok bf) :
    (do_GET cfg w).1
      = [Event.bilibiliRequest, Event.youtubeRequest, Event.timestampCapture,
         Event.kvSetRequest KV_KEY_NAME
           (result_data bf
             (get_youtube_subscribers cfg.youtube_api_key w.youtube)
             (pyIsoformat w.now ++ "Z"))]
    ∧ List.countP isTimestampCapture (do_GET cfg w).1 = 1
    ∧ ∃ p, pyIsoformat w.now ++ "Z" = p ++ "Z" := by
  simp only [configPresent, Bool.and_eq_true] at hcfg
  obtain ⟨⟨h1, h2⟩, h3⟩ := hcfg
  rw [do_GET_run cfg w bf h1 h2 h3 hb]
  refine ⟨rfl, ?_, ⟨pyIsoformat w.now, rfl⟩⟩
  simp [List.countP, List.countP.go, isTimestampCapture]

/-- Witness for C8 at the scenario-1 configuration and world. -/
theorem C8_witness :
    (do_GET cfg7 w7).1
      = [Event.bilibiliRequest, Event.youtubeRequest, Event.timestampCapture,
         Event.kvSetRequest KV_KEY_NAME
           (result_data (.int 500)
             (get_youtube_subscribers cfg7.youtube_api_key w7.youtube)
             (pyIsoformat w7.now ++ "Z"))]
    ∧ List.countP isTimestampCapture (do_GET cfg7 w7).1 = 1
    ∧ ∃ p, pyIsoformat w7.now ++ "Z" = p ++ "Z" :=
  C8_timestamp_once_after_adapters cfg7 w7 (.int 500) rfl rfl

/-- Counterexample to claim C9 as stated: a response whose second item has
`hiddenSubscriberCount` exactly false and no `subscriberCount` — so it
contains at least one qualifying item — yet the adapter answers the hidden
sentinel, not 0, because only the first item is inspected. -/
theorem C9_counterexample :
    hasItemHiddenFalseNoSub ytRespTwoItems = true
    ∧ get_youtube_subscribers (some "key") (.resp ytRespTwoItems) = .str "hidden" :=
  ⟨rfl, rfl⟩

/-- Claim C9 (amended): when the FIRST item's statistics dict has
`hiddenSubscriberCount` exactly false and no `subscriberCount` field, the
adapter returns the integer 0 rather than null. -/
theorem C9_first_item_hidden_false_no_subcount (api_key : Option String)
    (rfs ifs sfs : List (String × Json)) (rest : List Json)
    (hk : truthyOpt api_key = true)
    (hitems : List.lookup "items" rfs = some (.arr (Json.obj ifs :: rest)))
    (hstats : List.lookup "statistics" ifs = some (.obj sfs))
    (hhid : List.lookup "hiddenSubscriberCount" sfs = some (.bool false))
    (hsub : List.lookup "subscriberCount" sfs = none) :
    get_youtube_subscribers api_key (.resp (.obj rfs)) = .int 0 := by
  simp [get_youtube_subscribers, hk, ytTryBody, pyGet, pyGetD, hitems, hstats,
    hhid, hsub, pyTruthy, pyIndex0, pyEqFalse, pyInt]

/-- Witness for the amended C9 at a concrete response. -/
theorem C9_witness :
    get_youtube_subscribers (some "key")
      (.resp (.obj [("items", .arr [.obj [("statistics",
        .obj [("hiddenSubscriberCount", .bool false)])]])])) = .int 0 :=
  C9_first_item_hidden_false_no_subcount (some "key")
    [("items", .arr [.obj [("statistics",
      .obj [("hiddenSubscriberCount", .bool false)])]])]
    [("statistics", .obj [("hiddenSubscriberCount", .bool false)])]
    [("hiddenSubscriberCount", .bool false)] [] rfl rfl rfl rfl rfl

/-- Claim C10: with configuration present (and the Bilibili call returning),
whatever the adapter values and whatever the store answers, the constructed
snapshot carries the fixed identifiers user_id "491306902" and channel_id
"UC_5lJHgnMP_lb_VpIiXV0hQ", and the store write targets the single fixed key
"follower_counts". -/
theorem C10_fixed_identifiers_and_key (cfg : Config) (w : World) (bf : Json)
    (hcfg : configPresent cfg = true)
    (hb : get_bilibili_followers w.bilibili = .ok bf) :
    (do_GET cfg w).1
      = [Event.bilibiliRequest, Event.youtubeRequest, Event.timestampCapture,
         Event.kvSetRequest "follower_counts"
           (.obj [("bilibili", .obj [("user_id", .str "491306902"),
                    ("followers", bf)]),
                  ("youtube", .obj [("channel_id", .str "UC_5lJHgnMP_lb_VpIiXV0hQ"),
                    ("subscribers",
                      get_youtube_subscribers cfg.youtube_api_key w.youtube)]),
                  ("last_updated_utc", .str (pyIsoformat w.now ++ "Z"))])] := by
  simp only [configPresent, Bool.and_eq_true] at hcfg
  obtain ⟨⟨h1, h2⟩, h3⟩ := hcfg
  rw [do_GET_run cfg w bf h1 h2 h3 hb]
  rfl

/-- Witness for C10 at the scenario-1 configuration and an arbitrary-store
world. -/
theorem C10_witness :
    (do_GET cfg7 w6).1
      = [Event.bilibiliRequest, Event.youtubeRequest, Event.timestampCapture,
         Event.kvSetRequest "follower_counts"
           (.obj [("bilibili", .obj [("user_id", .str "491306902"),
                    ("followers", Json.null)]),
                  ("youtube", .obj [("channel_id", .str "UC_5lJHgnMP_lb_VpIiXV0hQ"),
                    ("subscribers",
                      get_youtube_subscribers cfg7.youtube_api_key w6.youtube)]),
                  ("last_updated_utc", .str (pyIsoformat w6.now ++ "Z"))])] :=
  C10_fixed_identifiers_and_key cfg7 w6 Json.null rfl rfl

end FollowerFetch
